import Mathlib

/-!
Verification of the git-backed configuration staging / hot-reload protocol
(`plugins/in_git_config/git_config.c`): the pointer-file staging store
(slots `cur`, `new`, `old` persisted as one-line ref files next to rendered
configuration artifacts) and the polling supervisor tick
(`cb_git_config_collect`) that stages new revisions, requests reloads and
reconciles outcomes on later ticks.

Paths and file contents are modelled as `List Char`.  The filesystem state
relevant to the protocol is a `Store`: the raw contents of the three ref
files (`none` = file absent) plus the set of artifact files that exist.
I/O write failures (disk full, permission) are modelled by boolean oracles
passed to each operation; a failed write leaves the canonical file untouched,
exactly as the temp-file-and-rename scheme in `config_set_ref` does.
-/

namespace GitConfig

/-- Filesystem paths and file contents, as character lists. -/
abbrev Path := List Char

/-- The three slot names: `cur.ref`, `new.ref`, `old.ref`
(spec names: current, candidate, previous). -/
inductive Slot
  | cur
  | new
  | old
deriving DecidableEq, Repr

/-- The durable state of the staging store: raw contents of the three ref
files (`none` when the file does not exist) and the set of artifact files
present in the configs directory. -/
structure Store where
  cur : Option Path
  new : Option Path
  old : Option Path
  artifacts : List Path
deriving DecidableEq, Repr

/-- Raw content of a slot's ref file. -/
def getRef (s : Store) : Slot → Option Path
  | .cur => s.cur
  | .new => s.new
  | .old => s.old

/-- Overwrite a slot's ref file with raw content (the atomic rename). -/
def setRefRaw (s : Store) (r : Slot) (c : Path) : Store :=
  match r with
  | .cur => { s with cur := some c }
  | .new => { s with new := some c }
  | .old => { s with old := some c }

/-- `remove()` of a slot's ref file. -/
def delRef (s : Store) (r : Slot) : Store :=
  match r with
  | .cur => { s with cur := none }
  | .new => { s with new := none }
  | .old => { s with old := none }

/-- `remove()` of an artifact file. -/
def removeFile (s : Store) (p : Path) : Store :=
  { s with artifacts := s.artifacts.filter (fun q => decide (q ≠ p)) }

/-- Whether an artifact file exists (`access(path, F_OK) == 0`). -/
def fileExists (s : Store) (p : Path) : Bool :=
  decide (p ∈ s.artifacts)

/-- `fgets` on a file's contents: the first line, including its newline
when one is present. -/
def firstLine : Path → Path
  | [] => []
  | c :: rest => if c = '\n' then ['\n'] else c :: firstLine rest

/-- Strip one trailing newline, as `config_deref` does on the line read. -/
def chomp (l : Path) : Path :=
  if l.getLast? = some '\n' then l.dropLast else l

/-- Parse a ref file's raw contents the way `config_deref` reads them:
`fgets` the first line (failing on an empty file) and strip the trailing
newline. -/
def parseRefContent (content : Path) : Option Path :=
  if content = [] then none else some (chomp (firstLine content))

/-- Serialization performed by `config_set_ref`: `fprintf(fp, "%s\n", path)`. -/
def serializeRef (p : Path) : Path := p ++ ['\n']

/-- `config_deref`: read the ref file for a slot and return the config path
it points to, or `none` if the file is absent (or contains nothing). -/
def config_deref (s : Store) (r : Slot) : Option Path :=
  (getRef s r).bind parseRefContent

/-- `config_set_ref`: atomically point a ref file at a config path.
`wOk` is the I/O oracle; on failure the canonical ref file is untouched. -/
def config_set_ref (s : Store) (r : Slot) (p : Path) (wOk : Bool) : Bool × Store :=
  if wOk then (true, setRefRaw s r (serializeRef p)) else (false, s)

/-- `config_ref_exists`: dereference the slot and additionally check with
`access()` that the artifact file it points to exists. -/
def config_ref_exists (s : Store) (r : Slot) : Bool :=
  match config_deref s r with
  | none => false
  | some p => fileExists s p

/-- Second half of `config_add` (after the cur-to-old backup): delete a
differing staged artifact, set `new.ref`, delete `cur.ref`. -/
def addRest (s : Store) (p : Path) (wNew : Bool) : Bool × Store :=
  let s1 :=
    match config_deref s .new with
    | some n => if n ≠ p then removeFile s n else s
    | none => s
  match config_set_ref s1 .new p wNew with
  | (false, s2) => (false, s2)
  | (true, s2) => (true, delRef s2 .cur)

/-- `config_add` (stage): back up `cur` into `old` (abort unchanged on
failure), delete a differing previously staged artifact, set `new.ref` to
the given path, delete the `cur.ref` pointer record. -/
def config_add (s : Store) (p : Path) (wOld wNew : Bool) : Bool × Store :=
  match config_deref s .cur with
  | some c =>
    match config_set_ref s .old c wOld with
    | (false, s1) => (false, s1)
    | (true, s1) => addRest s1 p wNew
  | none => addRest s p wNew

/-- `config_commit`: requires the staged config to exist (ref present and
artifact file on disk), sets `cur.ref` to it, deletes the old artifact file,
then deletes `new.ref` and `old.ref`. -/
def config_commit (s : Store) (wCur : Bool) : Bool × Store :=
  if config_ref_exists s .new then
    match config_deref s .new with
    | none => (false, s)
    | some np =>
      match config_set_ref s .cur np wCur with
      | (false, s1) => (false, s1)
      | (true, s1) =>
        let s2 :=
          match config_deref s1 .old with
          | some op => removeFile s1 op
          | none => s1
        (true, delRef (delRef s2 .new) .old)
  else
    (false, s)

/-- `config_rollback`: delete the staged artifact file first, then require
`old.ref` (else fail), set `cur.ref` to the old path and delete `new.ref`
and `old.ref`. -/
def config_rollback (s : Store) (wCur : Bool) : Bool × Store :=
  let s1 :=
    match config_deref s .new with
    | some np => removeFile s np
    | none => s
  match config_deref s1 .old with
  | none => (false, s1)
  | some op =>
    match config_set_ref s1 .cur op wCur with
    | (false, s2) => (false, s2)
    | (true, s2) => (true, delRef (delRef s2 .new) .old)

/-!
## RevisionSupervisor: SHA extraction and the poll tick
-/

/-- The ".yaml" extension searched for by `extract_sha_from_config_path`. -/
def yamlExt : Path := ['.', 'y', 'a', 'm', 'l']

/-- Everything after the last FLB_DIRCHAR, or the whole path when there is
no separator (`strrchr` in `extract_sha_from_config_path`). -/
def pathBasename : Path → Path
  | [] => []
  | c :: rest => if c = '/' ∨ '/' ∈ rest then pathBasename rest else c :: rest

/-- `strstr`: index of the first occurrence of `pat` in the list, if any. -/
def findSubstrIdx (pat : Path) : Path → Option Nat
  | [] => if pat.isPrefixOf ([] : Path) then some 0 else none
  | c :: rest =>
    if pat.isPrefixOf (c :: rest) then some 0
    else (findSubstrIdx pat rest).map (· + 1)

/-- `extract_sha_from_config_path`: take the basename, locate the first
`.yaml` occurrence, and return the leading characters only when exactly 40
of them precede it. -/
def extract_sha_from_config_path (config_path : Path) : Option Path :=
  let b := pathBasename config_path
  match findSubstrIdx yamlExt b with
  | none => none
  | some i => if i = 40 then some (b.take 40) else none

/-- `get_current_sha`: dereference `cur.ref` and extract the SHA embedded in
the artifact filename. -/
def get_current_sha (s : Store) : Option Path :=
  (config_deref s .cur).bind extract_sha_from_config_path

/-- `get_config_path_for_sha`: `<configs-dir>/<sha>.yaml`. -/
def get_config_path_for_sha (configsPath sha : Path) : Path :=
  configsPath ++ '/' :: (sha ++ yamlExt)

/-- The host-process state observed by the supervisor: the
`hot_reloading` and `hot_reload_succeeded` flags and the path of the
configuration the host is running (`config->conf_path_file`). -/
structure Host where
  hotReloading : Bool
  hotReloadSucceeded : Bool
  confPathFile : Option Path
deriving DecidableEq, Repr

/-- Actions a tick performs, recorded in order for observation. -/
inductive Event
  | reloadReq : Path → Event
  | reconciled : Event
  | committed : Event
  | polled : Event
  | synced : Event
  | staged : Path → Event
  | rolledBack : Event
deriving DecidableEq, Repr

/-- `is_new_config`: the host's running configuration path is non-null and
equals the dereferenced staged config path. -/
def is_new_config (s : Store) (h : Host) : Bool :=
  match h.confPathFile, config_deref s .new with
  | some cp, some np => decide (np = cp)
  | _, _ => false

/-- `commit_if_reloaded`: commit the staged config only when the host is not
mid-reload, the last reload succeeded, the staged ref and artifact exist,
and the host is actually running the staged config; otherwise a no-op. -/
def commit_if_reloaded (s : Store) (h : Host) (wCur : Bool) :
    Bool × Store × List Event :=
  if h.hotReloading then (true, s, [])
  else if ¬ h.hotReloadSucceeded then (true, s, [])
  else if ¬ config_ref_exists s .new then (true, s, [])
  else if is_new_config s h then
    match config_commit s wCur with
    | (true, s1) => (true, s1, [.committed])
    | (false, s1) => (false, s1, [])
  else (true, s, [])

/-- `execute_reload`: record the new running-config path on the host, clear
`hot_reload_succeeded`, and spawn the detached reload thread; the boolean
oracle is whether thread creation succeeds. -/
def execute_reload (h : Host) (p : Path) (initOk : Bool) : Bool × Host :=
  (initOk, { h with hotReloadSucceeded := false, confPathFile := some p })

/-- External behavior feeding one tick: remote fetch result, sync and file
extraction results, artifact render success, the two possible reload-thread
creations, and the I/O oracles for the three pointer writes. -/
structure Env where
  remoteSha : Option Path
  syncOk : Bool
  fileContent : Option Path
  renderOk : Bool
  reloadInit1 : Bool
  reloadInit2 : Bool
  wOld : Bool
  wNew : Bool
  wCur : Bool
deriving DecidableEq, Repr

/-- Supervisor in-process state: the pending startup reload target plus the
durable store. -/
structure SupState where
  pending : Option Path
  store : Store
deriving DecidableEq, Repr

/-- The body of `cb_git_config_collect` after the pending-startup-reload
check: reconcile, poll the remote SHA, compare with the current SHA, sync,
extract and render the artifact, stage it, and request a reload (rolling
back when the reload thread cannot be created). -/
def tick_main (configsPath : Path) (s : Store) (h : Host) (env : Env)
    (ev0 : List Event) : Store × Host × List Event :=
  let cir := commit_if_reloaded s h env.wCur
  let s1 := cir.2.1
  let ev1 := ev0 ++ Event.reconciled :: cir.2.2
  match env.remoteSha with
  | none => (s1, h, ev1 ++ [.polled])
  | some rsha =>
    let ev2 := ev1 ++ [.polled]
    if get_current_sha s1 = some rsha then (s1, h, ev2)
    else if ¬ env.syncOk then (s1, h, ev2 ++ [.synced])
    else
      let ev3 := ev2 ++ [.synced]
      match env.fileContent with
      | none => (s1, h, ev3)
      | some _ =>
        if ¬ env.renderOk then (s1, h, ev3)
        else
          let p := get_config_path_for_sha configsPath rsha
          let s2 :=
            if p ∈ s1.artifacts then s1
            else { s1 with artifacts := p :: s1.artifacts }
          let add := config_add s2 p env.wOld env.wNew
          let ev4 := ev3 ++ [.staged p]
          if add.1 then
            let rel := execute_reload h p env.reloadInit2
            if rel.1 then (add.2, rel.2, ev4 ++ [.reloadReq p])
            else
              ((config_rollback add.2 env.wCur).2, rel.2,
               ev4 ++ [.reloadReq p, .rolledBack])
          else (add.2, h, ev4)

/-- One tick of `cb_git_config_collect`: if a startup reload is pending,
issue it (always clearing the pending slot); when it initiates successfully
the rest of the tick is skipped, otherwise the normal flow continues. -/
def tick (configsPath : Path) (ss : SupState) (h : Host) (env : Env) :
    SupState × Host × List Event :=
  match ss.pending with
  | some p =>
    let rel := execute_reload h p env.reloadInit1
    if rel.1 then ({ pending := none, store := ss.store }, rel.2, [.reloadReq p])
    else
      let r := tick_main configsPath ss.store rel.2 env [.reloadReq p]
      ({ pending := none, store := r.1 }, r.2.1, r.2.2)
  | none =>
    let r := tick_main configsPath ss.store h env []
    ({ pending := none, store := r.1 }, r.2.1, r.2.2)

/-- A sequence of ticks, each fed its own host status and environment. -/
def runTicks (configsPath : Path) (ss : SupState) :
    List (Host × Env) → SupState
  | [] => ss
  | (h, e) :: rest => runTicks configsPath (tick configsPath ss h e).1 rest

/-!
## Plugin initialization: header-file creation from the startup config
-/

/-- Number of leading spaces of a line (`while (*ptr == ' ')`). -/
def leadingSpaces : Path → Nat
  | [] => 0
  | c :: rest => if c = ' ' then leadingSpaces rest + 1 else 0

/-- A line with its leading spaces removed. -/
def dropSpaces : Path → Path
  | [] => []
  | c :: rest => if c = ' ' then dropSpaces rest else c :: rest

/-- The literal compared by `strncmp(ptr, "customs:", 8)`. -/
def customsKey : Path := ['c', 'u', 's', 't', 'o', 'm', 's', ':']

/-- The line scanner of `extract_customs_section`: a line starting (after
indentation) with `customs:` opens the section at its indent; once inside,
a non-blank line at the section's indent or less ends the scan; other lines
inside the section are accumulated. -/
def customs_scan : List Path → Bool → Int → Path → Path
  | [], _, _, acc => acc
  | l :: rest, inCustoms, customsIndent, acc =>
    let ind : Int := leadingSpaces l
    let ptr := dropSpaces l
    if customsKey.isPrefixOf ptr then
      customs_scan rest true ind (acc ++ l)
    else if inCustoms then
      if decide (ind ≤ customsIndent) &&
          (match ptr.head? with
           | some c => decide (c ≠ '\n')
           | none => false) then
        acc
      else
        customs_scan rest inCustoms customsIndent (acc ++ l)
    else
      customs_scan rest inCustoms customsIndent acc

/-- `extract_customs_section` on the lines of the startup configuration
file: `none` when nothing was accumulated. -/
def extract_customs_section (lines : List Path) : Option Path :=
  let acc := customs_scan lines false (-1) []
  if acc = [] then none else some acc

/-- `create_header_file`: fails when the startup configuration has no
customs section; otherwise succeeds iff writing the header file does. -/
def create_header_file (startupLines : List Path) (writeOk : Bool) : Bool :=
  match extract_customs_section startupLines with
  | none => false
  | some _ => writeOk

/-- Inputs to plugin initialization: the required configuration-map
parameters, oracles for directory creation and git-library setup, whether
`<configs>/header.yaml` already exists, the lines of the process's startup
configuration file (`none` when `config->conf_path_file` is null), the
header write oracle, and the collector-creation oracle. -/
structure InitEnv where
  repo : Option Path
  ref : Option Path
  path : Option Path
  dirsOk : Bool
  gitOk : Bool
  headerExists : Bool
  startupConf : Option (List Path)
  headerWriteOk : Bool
  collectorOk : Bool
deriving DecidableEq, Repr

/-- `cb_git_config_init`: parameter validation, directory and git setup,
then header-file creation from the startup config when the header does not
already exist; only on the success path is the poll collector created
(`flb_input_set_collector_time`), which the `some ()` result stands for.
A `none` result is the `-1` return: the plugin never starts polling. -/
def cb_git_config_init (e : InitEnv) : Option Unit :=
  if e.repo = none ∨ e.ref = none ∨ e.path = none then none
  else if ¬ e.dirsOk then none
  else if ¬ e.gitOk then none
  else if e.headerExists then
    if e.collectorOk then some () else none
  else
    match e.startupConf with
    | none => none
    | some lines =>
      if create_header_file lines e.headerWriteOk then
        if e.collectorOk then some () else none
      else none

/-!
## Store shapes and invariant
-/

/-- Steady state: `cur.ref` present, `new.ref` and `old.ref` absent. -/
def SteadyShape (s : Store) : Prop :=
  s.cur ≠ none ∧ s.new = none ∧ s.old = none

/-- Mid-staging state: `new.ref` present, `cur.ref` deliberately absent. -/
def StagedShape (s : Store) : Prop :=
  s.new ≠ none ∧ s.cur = none

/-- First-run state: no pointer record at all. -/
def EmptyShape (s : Store) : Prop :=
  s.cur = none ∧ s.new = none ∧ s.old = none

/-- The reachable pointer-record shapes of the store. -/
def StoreInv (s : Store) : Prop :=
  SteadyShape s ∨ StagedShape s ∨ EmptyShape s

instance (s : Store) : Decidable (SteadyShape s) := by
  unfold SteadyShape; infer_instance

instance (s : Store) : Decidable (StagedShape s) := by
  unfold StagedShape; infer_instance

instance (s : Store) : Decidable (EmptyShape s) := by
  unfold EmptyShape; infer_instance

instance (s : Store) : Decidable (StoreInv s) := by
  unfold StoreInv; infer_instance

/-!
## Helper lemmas
-/

theorem serializeRef_ne_nil (p : Path) : serializeRef p ≠ [] := by
  simp [serializeRef]

theorem firstLine_append_newline (p : Path) (h : '\n' ∉ p) :
    firstLine (p ++ ['\n']) = p ++ ['\n'] := by
  induction p with
  | nil => simp [firstLine]
  | cons c rest ih =>
    have hc : c ≠ '\n' := fun hc => h (hc ▸ List.mem_cons_self c rest)
    have hr : '\n' ∉ rest := fun hr => h (List.mem_cons_of_mem c hr)
    simp [firstLine, hc, ih hr]

theorem chomp_append_newline (p : Path) : chomp (p ++ ['\n']) = p := by
  simp [chomp, List.getLast?_concat]

theorem parse_serialize (p : Path) (h : '\n' ∉ p) :
    parseRefContent (serializeRef p) = some p := by
  simp [parseRefContent, serializeRef, firstLine_append_newline p h,
        chomp_append_newline]

theorem ref_exists_iff (s : Store) (r : Slot) :
    config_ref_exists s r = true ↔
      ∃ p, config_deref s r = some p ∧ p ∈ s.artifacts := by
  unfold config_ref_exists
  cases hd : config_deref s r with
  | none => simp
  | some p => simp [fileExists, hd]

theorem addRest_tt (s : Store) (p : Path) :
    (addRest s p true).1 = true ∧
      (addRest s p true).2.new = some (serializeRef p) ∧
      (addRest s p true).2.cur = none := by
  unfold addRest
  cases hn : config_deref s .new with
  | none => simp [config_set_ref, setRefRaw, delRef]
  | some n =>
    by_cases hnp : n = p <;>
      simp [hnp, config_set_ref, setRefRaw, delRef, removeFile]

theorem config_add_tt (s : Store) (p : Path) :
    (config_add s p true true).1 = true ∧
      StagedShape (config_add s p true true).2 := by
  have key : ∀ t : Store, (addRest t p true).1 = true ∧
      StagedShape (addRest t p true).2 := by
    intro t
    obtain ⟨h1, h2, h3⟩ := addRest_tt t p
    exact ⟨h1, by simp [StagedShape, h2, h3]⟩
  unfold config_add
  cases hd : config_deref s .cur with
  | none => exact key s
  | some c => simpa [config_set_ref] using key (setRefRaw s .old (serializeRef c))

@[simp]
theorem deref_setRefRaw_cur_old (s : Store) (x : Path) :
    config_deref (setRefRaw s .cur x) .old = config_deref s .old := rfl

@[simp]
theorem deref_setRefRaw_cur_new (s : Store) (x : Path) :
    config_deref (setRefRaw s .cur x) .new = config_deref s .new := rfl

@[simp]
theorem deref_setRefRaw_old_new (s : Store) (x : Path) :
    config_deref (setRefRaw s .old x) .new = config_deref s .new := rfl

@[simp]
theorem deref_setRefRaw_old_cur (s : Store) (x : Path) :
    config_deref (setRefRaw s .old x) .cur = config_deref s .cur := rfl

@[simp]
theorem deref_removeFile (s : Store) (p : Path) (r : Slot) :
    config_deref (removeFile s p) r = config_deref s r := by
  cases r <;> rfl

theorem config_commit_cases (s : Store) :
    ((config_commit s true).1 = true ∧ SteadyShape (config_commit s true).2) ∨
    ((config_commit s true).1 = false ∧ (config_commit s true).2 = s) := by
  unfold config_commit
  cases he : config_ref_exists s .new with
  | false => right; simp
  | true =>
    obtain ⟨np, hnp, _⟩ := (ref_exists_iff s .new).mp he
    left
    simp only [he, hnp, if_true, config_set_ref, deref_setRefRaw_cur_old]
    cases ho : config_deref s .old with
    | none => simp [ho, setRefRaw, delRef, SteadyShape]
    | some op => simp [ho, setRefRaw, delRef, removeFile, SteadyShape]

theorem config_rollback_cases (s : Store) :
    ((config_rollback s true).1 = true ∧ SteadyShape (config_rollback s true).2) ∨
    ((config_rollback s true).1 = false ∧
      (config_rollback s true).2.cur = s.cur ∧
      (config_rollback s true).2.new = s.new ∧
      (config_rollback s true).2.old = s.old) := by
  unfold config_rollback
  cases hn : config_deref s .new with
  | none =>
    cases ho : config_deref s .old with
    | none => right; simp [hn, ho]
    | some op => left; simp [hn, ho, config_set_ref, setRefRaw, delRef, SteadyShape]
  | some np =>
    simp only [hn, deref_removeFile]
    cases ho : config_deref s .old with
    | none => right; simp [ho, removeFile]
    | some op =>
      left
      simp only [ho, config_set_ref, if_true]
      refine ⟨trivial, ?_⟩
      simp [setRefRaw, delRef, removeFile, SteadyShape]

theorem commit_if_reloaded_cases (s : Store) (h : Host) :
    (commit_if_reloaded s h true).2.1 = s ∨
      SteadyShape (commit_if_reloaded s h true).2.1 := by
  unfold commit_if_reloaded
  split
  · left; rfl
  split
  · left; rfl
  split
  · left; rfl
  split
  · rcases hc : config_commit s true with ⟨b, s1⟩
    rcases config_commit_cases s with ⟨hb, hshape⟩ | ⟨hb, hshape⟩ <;>
      rw [hc] at hb hshape <;> simp at hb hshape <;> subst hb
    · right; simp [hshape]
    · left; simp [hshape]
  · left; rfl

theorem tick_main_inv (cfg : Path) (s : Store) (h : Host) (e : Env)
    (ev0 : List Event) (hOld : e.wOld = true) (hNew : e.wNew = true)
    (hCur : e.wCur = true) (hs : StoreInv s) :
    StoreInv (tick_main cfg s h e ev0).1 := by
  unfold tick_main
  rw [hOld, hNew, hCur]
  have hs1 : StoreInv (commit_if_reloaded s h true).2.1 := by
    rcases commit_if_reloaded_cases s h with hh | hh
    · rw [hh]; exact hs
    · exact Or.inl hh
  cases hrem : e.remoteSha with
  | none => exact hs1
  | some rsha =>
    dsimp only
    split
    · exact hs1
    split
    · exact hs1
    cases hfc : e.fileContent with
    | none => exact hs1
    | some _ =>
      split
      · exact hs1
      · split
        · exact hs1
        · set s2 := if get_config_path_for_sha cfg rsha ∈
              (commit_if_reloaded s h true).2.1.artifacts then
              (commit_if_reloaded s h true).2.1
            else
              { (commit_if_reloaded s h true).2.1 with
                artifacts := get_config_path_for_sha cfg rsha ::
                  (commit_if_reloaded s h true).2.1.artifacts } with hs2
          obtain ⟨hadd1, hadd2⟩ := config_add_tt s2 (get_config_path_for_sha cfg rsha)
          rw [hadd1, if_pos rfl]
          cases hri : e.reloadInit2 with
          | true => exact Or.inr (Or.inl hadd2)
          | false =>
            simp only [execute_reload, Bool.false_eq_true, if_false]
            rcases config_rollback_cases
                (config_add s2 (get_config_path_for_sha cfg rsha) true true).2 with
              ⟨_, hshape⟩ | ⟨_, hc, hn2, _⟩
            · exact Or.inl hshape
            · refine Or.inr (Or.inl ?_)
              unfold StagedShape at hadd2 ⊢
              rw [hc, hn2]
              exact hadd2

theorem tick_inv (cfg : Path) (ss : SupState) (h : Host) (e : Env)
    (hOld : e.wOld = true) (hNew : e.wNew = true) (hCur : e.wCur = true)
    (hs : StoreInv ss.store) : StoreInv (tick cfg ss h e).1.store := by
  unfold tick
  cases hp : ss.pending with
  | none => exact tick_main_inv cfg ss.store h e [] hOld hNew hCur hs
  | some p =>
    dsimp only
    split
    · exact hs
    · exact tick_main_inv cfg ss.store _ e _ hOld hNew hCur hs

theorem getRef_setRefRaw_same (s : Store) (r : Slot) (x : Path) :
    getRef (setRefRaw s r x) r = some x := by
  cases r <;> rfl

theorem addRest_eq (t : Store) (p : Path) :
    addRest t p true =
      (true,
        { cur := none,
          new := some (serializeRef p),
          old := t.old,
          artifacts :=
            match config_deref t .new with
            | some n => if n = p then t.artifacts
                        else t.artifacts.filter (fun q => decide (q ≠ n))
            | none => t.artifacts }) := by
  unfold addRest
  cases hn : config_deref t .new with
  | none => simp [config_set_ref, setRefRaw, delRef]
  | some n =>
    by_cases hnp : n = p <;>
      simp [hnp, config_set_ref, setRefRaw, delRef, removeFile]

theorem pathBasename_of_no_slash (l : Path) (h : '/' ∉ l) :
    pathBasename l = l := by
  induction l with
  | nil => rfl
  | cons c rest ih =>
    have hc : c ≠ '/' := fun hc => h (hc ▸ List.mem_cons_self c rest)
    have hr : '/' ∉ rest := fun hr => h (List.mem_cons_of_mem c hr)
    simp [pathBasename, hc, hr]

theorem pathBasename_append (d s : Path) (h : '/' ∉ s) :
    pathBasename (d ++ '/' :: s) = s := by
  induction d with
  | nil => simp [pathBasename, pathBasename_of_no_slash s h]
  | cons c rest ih =>
    have hmem : '/' ∈ rest ++ '/' :: s := by simp
    simp [pathBasename, hmem, ih]

theorem findSubstrIdx_yaml (b : Path) (h : '.' ∉ b) :
    findSubstrIdx yamlExt (b ++ yamlExt) = some b.length := by
  induction b with
  | nil => decide
  | cons c rest ih =>
    have hc : c ≠ '.' := fun hc => h (hc ▸ List.mem_cons_self c rest)
    have hr : '.' ∉ rest := fun hr => h (List.mem_cons_of_mem c hr)
    have hpre : yamlExt.isPrefixOf (c :: (rest ++ yamlExt)) = false := by
      have hbe : ('.' == c) = false :=
        beq_eq_false_iff_ne.mpr (fun he => hc he.symm)
      simp only [yamlExt, List.isPrefixOf, hbe, Bool.false_and]
    rw [List.cons_append]
    unfold findSubstrIdx
    rw [hpre]
    simp [ih hr]

theorem runTicks_inv (cfg : Path) (l : List (Host × Env)) (ss : SupState)
    (hw : ∀ he ∈ l, he.2.wOld = true ∧ he.2.wNew = true ∧ he.2.wCur = true)
    (hs : StoreInv ss.store) : StoreInv (runTicks cfg ss l).store := by
  induction l generalizing ss with
  | nil => exact hs
  | cons he rest ih =>
    obtain ⟨hh, ee⟩ := he
    obtain ⟨h1, h2, h3⟩ := hw _ (List.mem_cons_self _ rest)
    show StoreInv (runTicks cfg (tick cfg ss hh ee).1 rest).store
    apply ih
    · exact fun x hx => hw x (List.mem_cons_of_mem _ hx)
    · exact tick_inv cfg ss hh ee h1 h2 h3 hs

/-!
## Concrete fixtures
-/

/-- A configs directory, as in the default layout. -/
def configsDirC : Path := "configs".toList

/-- A 40-character revision id. -/
def shaAC : Path := List.replicate 40 'a'

/-- A second, distinct 40-character revision id. -/
def shaBC : Path := List.replicate 40 'b'

/-- `configs/aaa...a.yaml`. -/
def artifactA : Path := get_config_path_for_sha configsDirC shaAC

/-- `configs/bbb...b.yaml`. -/
def artifactB : Path := get_config_path_for_sha configsDirC shaBC

/-- Steady store: only `cur.ref` present, pointing at `artifactA`. -/
def steadyStoreA : Store :=
  { cur := some (serializeRef artifactA), new := none, old := none,
    artifacts := [artifactA] }

/-- Mid-staging store: candidate `artifactB` staged over previous
`artifactA`, `cur.ref` deliberately absent. -/
def stagedStoreBA : Store :=
  { cur := none, new := some (serializeRef artifactB),
    old := some (serializeRef artifactA), artifacts := [artifactB, artifactA] }

/-- Store whose `new.ref` exists but whose staged artifact file does not. -/
def danglingStore : Store :=
  { cur := none, new := some (serializeRef artifactB), old := none,
    artifacts := [] }

/-- Store with a staged candidate and no `old.ref` to roll back to. -/
def noOldStore : Store :=
  { cur := none, new := some (serializeRef artifactB), old := none,
    artifacts := [artifactB] }

/-- Host after a failed reload attempt on the staged candidate. -/
def hostFailed : Host :=
  { hotReloading := false, hotReloadSucceeded := false,
    confPathFile := some artifactB }

/-- Host with no reload history. -/
def hostIdle : Host :=
  { hotReloading := false, hotReloadSucceeded := false, confPathFile := none }

/-- An environment in which everything succeeds and the remote moved to
revision `shaBC`. -/
def envAllOkB : Env :=
  { remoteSha := some shaBC, syncOk := true, fileContent := some [],
    renderOk := true, reloadInit1 := true, reloadInit2 := true,
    wOld := true, wNew := true, wCur := true }

/-- Same but the remote fetch fails this tick. -/
def envFetchFail : Env := { envAllOkB with remoteSha := none }

/-- Same but the startup-pending reload fails to initiate. -/
def envPendingFail : Env := { envAllOkB with reloadInit1 := false }

/-!
## Claims
-/

/-- C1 counterexample: with a staged candidate, a populated previous slot and
the host reporting `lastReloadSucceeded()=false`, the tick does NOT call
`rollback()`: the store is unchanged, the candidate's artifact file survives,
no rollback event occurs and `cur` is not set to the previous target. -/
theorem c1_counterexample :
    (tick configsDirC { pending := none, store := stagedStoreBA } hostFailed
        envFetchFail).1.store = stagedStoreBA ∧
    Event.rolledBack ∉
      (tick configsDirC { pending := none, store := stagedStoreBA } hostFailed
        envFetchFail).2.2 ∧
    artifactB ∈
      (tick configsDirC { pending := none, store := stagedStoreBA } hostFailed
        envFetchFail).1.store.artifacts ∧
    (tick configsDirC { pending := none, store := stagedStoreBA } hostFailed
        envFetchFail).1.store.cur ≠ some (serializeRef artifactA) := by
  decide

/-- C1 (amended): when the host reports the last reload did not succeed,
the reconciliation step (`commit_if_reloaded`) is a no-op that leaves the
store untouched and performs neither a commit nor a rollback; rollback is
reached only when a reload fails to initiate on the tick that staged. -/
theorem c1_reconcile_noop (s : Store) (h : Host) (w : Bool)
    (hfail : h.hotReloadSucceeded = false) :
    commit_if_reloaded s h w = (true, s, []) := by
  unfold commit_if_reloaded
  rw [hfail]
  simp

/-- C1 witness. -/
theorem c1_witness :
    commit_if_reloaded stagedStoreBA hostFailed true =
      (true, stagedStoreBA, []) :=
  c1_reconcile_noop stagedStoreBA hostFailed true (by decide)

/-- C2 counterexample: one supervisor tick that runs to completion (it
detects a new remote revision, stages it and requests a reload) ends with
the candidate populated and `cur` absent — not "exactly current populated,
candidate and previous absent". -/
theorem c2_counterexample :
    (runTicks configsDirC { pending := none, store := steadyStoreA }
        [(hostIdle, envAllOkB)]).store.new ≠ none ∧
    (runTicks configsDirC { pending := none, store := steadyStoreA }
        [(hostIdle, envAllOkB)]).store.cur = none := by
  decide

/-- C2 (amended): after any sequence of ticks that each run to completion
and in which every pointer-record write succeeds, a store that starts in a
protocol shape stays in a protocol shape: steady (exactly `cur` populated,
`new` and `old` absent), staged (`new` populated, `cur` absent), or empty
(no records); "exactly current populated" holds only when no staging is in
flight. -/
theorem c2_tick_shapes (cfg : Path) (ss : SupState) (l : List (Host × Env))
    (hw : ∀ he ∈ l, he.2.wOld = true ∧ he.2.wNew = true ∧ he.2.wCur = true)
    (hs : StoreInv ss.store) : StoreInv (runTicks cfg ss l).store :=
  runTicks_inv cfg l ss hw hs

/-- C2 witness. -/
theorem c2_witness :
    StoreInv (runTicks configsDirC { pending := none, store := steadyStoreA }
      [(hostIdle, envAllOkB)]).store :=
  c2_tick_shapes configsDirC { pending := none, store := steadyStoreA }
    [(hostIdle, envAllOkB)] (by decide) (by decide)

/-- C3 counterexample: `rollback()` with `previous` absent reports failure
but does NOT leave every artifact file unchanged — it deletes the
candidate's artifact file before checking for `previous`. -/
theorem c3_counterexample :
    (config_rollback noOldStore true).1 = false ∧
    (config_rollback noOldStore true).2.artifacts = [] ∧
    noOldStore.artifacts ≠ [] := by
  decide

/-- C3 (amended): with `previous` absent, `rollback()` reports failure
without crashing and leaves all three slot pointer records unchanged, but it
first deletes the candidate's artifact file when a candidate points at one. -/
theorem c3_rollback_no_previous (s : Store) (w : Bool)
    (h : config_deref s .old = none) :
    (config_rollback s w).1 = false ∧
    (config_rollback s w).2.cur = s.cur ∧
    (config_rollback s w).2.new = s.new ∧
    (config_rollback s w).2.old = s.old ∧
    (config_rollback s w).2.artifacts =
      (match config_deref s .new with
       | some np => s.artifacts.filter (fun q => decide (q ≠ np))
       | none => s.artifacts) := by
  unfold config_rollback
  cases hn : config_deref s .new with
  | none => simp [h, hn]
  | some np =>
    simp only [hn, deref_removeFile, h]
    simp [removeFile]

/-- C3 witness. -/
theorem c3_witness :
    (config_rollback noOldStore true).1 = false ∧
    (config_rollback noOldStore true).2.cur = noOldStore.cur ∧
    (config_rollback noOldStore true).2.new = noOldStore.new ∧
    (config_rollback noOldStore true).2.old = noOldStore.old ∧
    (config_rollback noOldStore true).2.artifacts =
      (match config_deref noOldStore .new with
       | some np => noOldStore.artifacts.filter (fun q => decide (q ≠ np))
       | none => noOldStore.artifacts) :=
  c3_rollback_no_previous noOldStore true (by decide)

/-- C4: `stage(artifactPath)` performs exactly: (1) back up a present `cur`
target into `old`, aborting with the store unchanged when that write fails;
(2) delete a differing previously staged artifact file; (3) set `new` to the
artifact path; (4) delete the `cur` pointer record while the artifact set is
touched only by step (2). -/
theorem c4_stage_steps (s : Store) (p : Path) :
    ((config_deref s .cur).isSome →
      ∀ w, config_add s p false w = (false, s)) ∧
    config_add s p true true =
      (true,
        { cur := none,
          new := some (serializeRef p),
          old := match config_deref s .cur with
                 | some c => some (serializeRef c)
                 | none => s.old,
          artifacts :=
            match config_deref s .new with
            | some n => if n = p then s.artifacts
                        else s.artifacts.filter (fun q => decide (q ≠ n))
            | none => s.artifacts }) := by
  constructor
  · intro hcur w
    unfold config_add
    cases hd : config_deref s .cur with
    | none => rw [hd] at hcur; simp at hcur
    | some c => simp [config_set_ref]
  · unfold config_add
    cases hd : config_deref s .cur with
    | none => rw [addRest_eq]
    | some c =>
      simp only [config_set_ref, if_true]
      rw [addRest_eq]
      simp only [deref_setRefRaw_old_new]
      simp [setRefRaw]

/-- C4 witness. -/
theorem c4_witness :
    config_add steadyStoreA artifactB false true = (false, steadyStoreA) :=
  (c4_stage_steps steadyStoreA artifactB).1 (by decide) true

/-- C5 counterexample: a store whose `new.ref` dereferences to a path whose
artifact file is missing — `slotExists` is false although `derefSlot` is
present, so the two are not equivalent "with no additional condition". -/
theorem c5_counterexample :
    config_ref_exists danglingStore .new = false ∧
    config_deref danglingStore .new = some artifactB := by
  decide

/-- C5 (amended): `slotExists(slot)` is true iff `derefSlot(slot)` returns a
present value AND the artifact file that value points to exists on disk. -/
theorem c5_slot_exists_iff (s : Store) (r : Slot) :
    config_ref_exists s r = true ↔
      ∃ p, config_deref s r = some p ∧ p ∈ s.artifacts :=
  ref_exists_iff s r

/-- C6 counterexample: a tick with a pending startup reload whose initiation
fails does NOT skip the remainder of the tick — it goes on to stage a new
revision and issues a further reload request (two reload requests in one
tick). -/
theorem c6_counterexample :
    Event.staged artifactB ∈
      (tick configsDirC { pending := some artifactB, store := stagedStoreBA }
        hostIdle envPendingFail).2.2 ∧
    ((tick configsDirC { pending := some artifactB, store := stagedStoreBA }
        hostIdle envPendingFail).2.2).count (Event.reloadReq artifactB) = 2 := by
  decide

/-- C6 (amended): when the pending startup reload initiates successfully the
tick issues it and skips everything else: the store is untouched, the
pending slot is cleared, and the reload request is the tick's only action;
when initiation fails the tick instead falls through to the normal flow. -/
theorem c6_pending_skips (cfg : Path) (ss : SupState) (h : Host) (e : Env)
    (p : Path) (hp : ss.pending = some p) (hok : e.reloadInit1 = true) :
    tick cfg ss h e =
      ({ pending := none, store := ss.store },
       { h with hotReloadSucceeded := false, confPathFile := some p },
       [Event.reloadReq p]) := by
  unfold tick
  rw [hp]
  simp [execute_reload, hok]

/-- C6 witness. -/
theorem c6_witness :
    tick configsDirC { pending := some artifactB, store := stagedStoreBA }
        hostIdle envAllOkB =
      ({ pending := none, store := stagedStoreBA },
       { hostIdle with hotReloadSucceeded := false,
                       confPathFile := some artifactB },
       [Event.reloadReq artifactB]) :=
  c6_pending_skips configsDirC
    { pending := some artifactB, store := stagedStoreBA } hostIdle envAllOkB
    artifactB rfl rfl

/-- C7: revision-id extraction on an artifact filename
`<dir>/<id>.yaml` (the id drawn from the hex alphabet, so containing
neither '.' nor '/') returns the 40-character basename prefix before the
extension and returns absent whenever that prefix's length differs from 40;
in particular extraction on "notasha.yaml" returns absent. -/
theorem c7_sha_extraction :
    (∀ d b : Path, '.' ∉ b → '/' ∉ b →
      extract_sha_from_config_path (d ++ '/' :: (b ++ yamlExt)) =
        if b.length = 40 then some b else none) ∧
    extract_sha_from_config_path ("notasha.yaml".toList) = none := by
  constructor
  · intro d b hdot hslash
    have hys : '/' ∉ yamlExt := by decide
    have hbs : '/' ∉ b ++ yamlExt := by
      intro hm
      rcases List.mem_append.mp hm with h1 | h2
      · exact hslash h1
      · exact hys h2
    unfold extract_sha_from_config_path
    rw [pathBasename_append d (b ++ yamlExt) hbs]
    dsimp only
    rw [findSubstrIdx_yaml b hdot]
    by_cases h40 : b.length = 40
    · simp only [h40, if_pos rfl]
      rw [← h40, List.take_left]
    · simp [h40]
  · decide

/-- C7 witness. -/
theorem c7_witness :
    extract_sha_from_config_path (configsDirC ++ '/' :: (shaAC ++ yamlExt)) =
      some shaAC := by
  have h := c7_sha_extraction.1 configsDirC shaAC (by decide) (by decide)
  simpa [shaAC] using h

/-- C8 counterexample: for the path "a\nb" (containing a newline), setSlot
succeeds but derefSlot returns only "a" — the round trip is not exact for
every path, because the pointer record serializes its target as one line. -/
theorem c8_counterexample :
    (config_set_ref danglingStore .cur ['a', '\n', 'b'] true).1 = true ∧
    config_deref (config_set_ref danglingStore .cur ['a', '\n', 'b'] true).2
        .cur = some ['a'] ∧
    (['a'] : Path) ≠ ['a', '\n', 'b'] := by
  decide

/-- C8 (amended): for every slot and every newline-free path, a successful
`setSlot(s, p)` followed by `derefSlot(s)` returns `p` exactly, character
for character. -/
theorem c8_set_deref_roundtrip (s : Store) (r : Slot) (p : Path)
    (h : '\n' ∉ p) :
    (config_set_ref s r p true).1 = true ∧
    config_deref (config_set_ref s r p true).2 r = some p := by
  refine ⟨rfl, ?_⟩
  show config_deref (setRefRaw s r (serializeRef p)) r = some p
  rw [config_deref, getRef_setRefRaw_same]
  exact parse_serialize p h

/-- C8 witness. -/
theorem c8_witness :
    (config_set_ref danglingStore .old artifactA true).1 = true ∧
    config_deref (config_set_ref danglingStore .old artifactA true).2 .old =
      some artifactA :=
  c8_set_deref_roundtrip danglingStore .old artifactA (by decide)

/-- C9: when the candidate slot is present (staged ref and artifact both
exist) but the write of the `cur` pointer record fails, `commit()` returns
failure and leaves the whole store — including the candidate and previous
pointer records and every artifact file — exactly as it was. -/
theorem c9_commit_write_failure (s : Store)
    (h : config_ref_exists s .new = true) :
    config_commit s false = (false, s) := by
  obtain ⟨np, hnp, _⟩ := (ref_exists_iff s .new).mp h
  unfold config_commit
  simp [h, hnp, config_set_ref]

/-- C9 witness. -/
theorem c9_witness : config_commit stagedStoreBA false = (false, stagedStoreBA) :=
  c9_commit_write_failure stagedStoreBA (by decide)

/-- C10: when `<configs>/header.yaml` does not already exist and the
process's startup configuration contains no `customs:` section (or there is
no startup configuration path at all), plugin initialization returns `-1`
(`none`), so the poll collector is never created and the supervisor never
starts polling — the failure is at startup, not local to a tick. -/
theorem c10_init_fails (e : InitEnv) (hh : e.headerExists = false)
    (hc : ∀ lines, e.startupConf = some lines →
      extract_customs_section lines = none) :
    cb_git_config_init e = none := by
  unfold cb_git_config_init
  split
  · rfl
  split
  · rfl
  split
  · rfl
  rw [hh]
  simp only [Bool.false_eq_true, if_false]
  cases hsc : e.startupConf with
  | none => rfl
  | some lines =>
    have hch : create_header_file lines e.headerWriteOk = false := by
      unfold create_header_file
      rw [hc lines hsc]
    simp [hch]

/-- A startup configuration with no customs section. -/
def noCustomsConf : List Path := ["service:\n".toList, "pipeline:\n".toList]

/-- Initialization inputs: header absent, startup config lacking customs. -/
def initEnvNoCustoms : InitEnv :=
  { repo := some ['r'], ref := some ['m'], path := some ['p'],
    dirsOk := true, gitOk := true, headerExists := false,
    startupConf := some noCustomsConf, headerWriteOk := true,
    collectorOk := true }

/-- C10 witness. -/
theorem c10_witness : cb_git_config_init initEnvNoCustoms = none :=
  c10_init_fails initEnvNoCustoms (by decide)
    (by
      intro lines hl
      have hl2 : some noCustomsConf = some lines := hl
      injection hl2 with h2
      rw [← h2]
      decide)

end GitConfig
